import Mathlib

/-!
Shallow embedding of `src/save/utils.rs` from the `gba` crate: the SRAM
timeout watchdog (`Timeout`), the process-wide timer registry
(`set_timer_for_timeout` / `disable_timeout`), and the media lock
(`lock_media`).  Stateful code is modelled by explicit state passing over a
`SaveState` record; memory-mapped register traffic is additionally recorded
as an explicit list of `RegAccess` events so that "performs no register
writes/reads" properties are statable.  Machine integers are `Nat` with
explicit `% 2 ^ 16` where u16 overflow matters.
-/

/-- Internal representation for the active timer (`enum TimerId` in
`utils.rs`): either no timer, or one of the four hardware timer units. -/
inductive TimerId
  | None
  | T0
  | T1
  | T2
  | T3
  deriving DecidableEq, Repr

/-- Modelled from the spec: the timer tick-rate prescaler selector of the
control register (`TimerTickRate` lives in `crate::io::timers`, outside the
given source).  The spec's hardware surface is "control register encoding
prescaler and enable bit"; the relevant variant is the /1024 prescaler. -/
inductive TimerTickRate
  | CPU1
  | CPU64
  | CPU256
  | CPU1024
  deriving DecidableEq, Repr

/-- Modelled from the spec: the timer control register value
(`TimerControlSetting` lives in `crate::io::timers`, outside the given
source).  Per the spec it encodes a prescaler and an enable bit. -/
structure TimerControlSetting where
  tick_rate : TimerTickRate
  enabled : Bool
  deriving DecidableEq, Repr

/-- Modelled from the spec: `TimerControlSetting::new()` is the
cleared/disabled configuration (no prescaler division, counting off). -/
def TimerControlSetting.new : TimerControlSetting :=
  { tick_rate := TimerTickRate.CPU1, enabled := false }

/-- Modelled from the spec: builder setting the prescaler field. -/
def TimerControlSetting.with_tick_rate (c : TimerControlSetting)
    (r : TimerTickRate) : TimerControlSetting :=
  { c with tick_rate := r }

/-- Modelled from the spec: builder setting the enable bit. -/
def TimerControlSetting.with_enabled (c : TimerControlSetting)
    (b : Bool) : TimerControlSetting :=
  { c with enabled := b }

/-- Modelled from the spec: address of timer unit 0's counter-low register
(the concrete constants live in `crate::io::timers`, outside the given
source; the values are the GBA timer register block). -/
def TM0CNT_L : Nat := 0x4000100

/-- Modelled from the spec: address of timer unit 0's control-high register. -/
def TM0CNT_H : Nat := 0x4000102

/-- Modelled from the spec: address of timer unit 1's counter-low register. -/
def TM1CNT_L : Nat := 0x4000104

/-- Modelled from the spec: address of timer unit 1's control-high register. -/
def TM1CNT_H : Nat := 0x4000106

/-- Modelled from the spec: address of timer unit 2's counter-low register. -/
def TM2CNT_L : Nat := 0x4000108

/-- Modelled from the spec: address of timer unit 2's control-high register. -/
def TM2CNT_H : Nat := 0x400010A

/-- Modelled from the spec: address of timer unit 3's counter-low register. -/
def TM3CNT_L : Nat := 0x400010C

/-- Modelled from the spec: address of timer unit 3's control-high register. -/
def TM3CNT_H : Nat := 0x400010E

/-- The error surface relevant to this module: the `MediaInUse` variant of
`save::Error`, returned on failed non-blocking lock acquisition. -/
inductive Error
  | MediaInUse
  deriving DecidableEq, Repr

/-- The process-wide state the module manipulates: the `TIMER_ID` registry
cell, the two lock bits (`TIMEOUT_LOCK` inside `Timeout::new`, `LOCK` inside
`lock_media` — both modelled from the spec's description of `RawMutex` as a
single-instance non-blocking try-lock), and the memory-mapped registers
(counter-low values and control-high values, keyed by address). -/
structure SaveState where
  timerId : TimerId
  timeoutLocked : Bool
  mediaLocked : Bool
  regL : Nat → Nat
  regH : Nat → TimerControlSetting

/-- One memory-mapped register access: a read of a counter-low register, a
write to a counter-low register, or a write to a control-high register. -/
inductive RegAccess
  | readL (addr : Nat)
  | writeL (addr : Nat) (val : Nat)
  | writeH (addr : Nat) (val : TimerControlSetting)
  deriving DecidableEq, Repr

/-- `pub fn set_timer_for_timeout(id: u8)`: panics (`none`) if `id >= 4`,
otherwise stores the selected `TimerId` into the registry. -/
def set_timer_for_timeout (id : Nat) (s : SaveState) : Option SaveState :=
  if h : id ≥ 4 then
    none
  else
    some { s with
      timerId := [TimerId.T0, TimerId.T1, TimerId.T2, TimerId.T3].get
        ⟨id, by simp only [List.length_cons, List.length_nil]; omega⟩ }

/-- `pub fn disable_timeout()`: stores `TimerId::None` into the registry. -/
def disable_timeout (s : SaveState) : SaveState :=
  { s with timerId := TimerId.None }

/-- `pub struct Timeout`: the watchdog.  The `RawMutexGuard` field is
represented by the `timeoutLocked` bit of `SaveState` (set while a `Timeout`
is alive, cleared by `Timeout.drop`); the two `VolAddress` fields are the
raw addresses. -/
structure Timeout where
  active : Bool
  timer_l : Nat
  timer_h : Nat
  deriving DecidableEq, Repr

/-- `Timeout::new()`: try-acquires `TIMEOUT_LOCK` (failing with
`Error::MediaInUse` if already held), then snapshots the registry once and
resolves the register handles — the sentinel address 0 when no timer is
selected. -/
def Timeout.new (s : SaveState) : Except Error (Timeout × SaveState) :=
  if s.timeoutLocked then
    Except.error Error.MediaInUse
  else
    let id := s.timerId
    Except.ok
      ({ active := decide (id ≠ TimerId.None),
         timer_l := match id with
           | TimerId.None => 0
           | TimerId.T0 => TM0CNT_L
           | TimerId.T1 => TM1CNT_L
           | TimerId.T2 => TM2CNT_L
           | TimerId.T3 => TM3CNT_L,
         timer_h := match id with
           | TimerId.None => 0
           | TimerId.T0 => TM0CNT_H
           | TimerId.T1 => TM1CNT_H
           | TimerId.T2 => TM2CNT_H
           | TimerId.T3 => TM3CNT_H },
       { s with timeoutLocked := true })

/-- Dropping a `Timeout` releases its `RawMutexGuard`, clearing the
watchdog lock bit. -/
def Timeout.drop (s : SaveState) : SaveState :=
  { s with timeoutLocked := false }

/-- A volatile write of a u16 value to a counter-low register. -/
def SaveState.writeL (s : SaveState) (a v : Nat) : SaveState :=
  { s with regL := fun x => if x = a then v % 2 ^ 16 else s.regL x }

/-- A volatile write of a control value to a control-high register. -/
def SaveState.writeH (s : SaveState) (a : Nat) (v : TimerControlSetting) :
    SaveState :=
  { s with regH := fun x => if x = a then v else s.regH x }

/-- `Timeout::start(&self)`: if inactive, does nothing.  If active, writes 0
to the counter register, then writes the cleared configuration and then the
armed configuration (/1024 prescaler, enabled) to the control register.
Returns the updated state together with the register-access trace. -/
def Timeout.start (t : Timeout) (s : SaveState) : SaveState × List RegAccess :=
  if t.active then
    let timer_ctl :=
      (TimerControlSetting.new.with_tick_rate TimerTickRate.CPU1024).with_enabled
        true
    (((s.writeL t.timer_l 0).writeH t.timer_h TimerControlSetting.new).writeH
        t.timer_h timer_ctl,
     [RegAccess.writeL t.timer_l 0,
      RegAccess.writeH t.timer_h TimerControlSetting.new,
      RegAccess.writeH t.timer_h timer_ctl])
  else
    (s, [])

/-- `Timeout::is_timeout_met(&self, check_ms: u16)`: the Rust expression
`self.active && check_ms * 17 < self.timer_l.read()`.  `&&` short-circuits,
so the counter register is read only when active; `check_ms * 17` is u16
multiplication, hence the explicit `% 2 ^ 16`.  Returns the result together
with the register-access trace. -/
def Timeout.is_timeout_met (t : Timeout) (s : SaveState) (check_ms : Nat) :
    Bool × List RegAccess :=
  if t.active then
    (decide (check_ms * 17 % 2 ^ 16 < s.regL t.timer_l),
     [RegAccess.readL t.timer_l])
  else
    (false, [])

/-- `pub fn lock_media()`: try-acquires the media lock `LOCK`, returning the
guard (represented by the state with the bit set) or `Error::MediaInUse`. -/
def lock_media (s : SaveState) : Except Error SaveState :=
  if s.mediaLocked then
    Except.error Error.MediaInUse
  else
    Except.ok { s with mediaLocked := true }

/-- Dropping the media lock guard (`RawMutexGuard`) releases the media
lock on scope exit. -/
def unlock_media (s : SaveState) : SaveState :=
  { s with mediaLocked := false }

/-- A convenient fully-reset state: no timer selected, both locks free, all
registers cleared. -/
def initState : SaveState :=
  { timerId := TimerId.None
    timeoutLocked := false
    mediaLocked := false
    regL := fun _ => 0
    regH := fun _ => TimerControlSetting.new }

/-- A watchdog bound to timer unit 0, as `Timeout::new` constructs it when
the registry holds `TimerId::T0`. -/
def wdT0 : Timeout :=
  { active := true, timer_l := TM0CNT_L, timer_h := TM0CNT_H }

/-- A state in which timer 0 is selected, the watchdog lock is held (by
`wdT0`), and timer 0's counter reads `v`. -/
def stateT0 (v : Nat) : SaveState :=
  { timerId := TimerId.T0
    timeoutLocked := true
    mediaLocked := false
    regL := fun a => if a = TM0CNT_L then v else 0
    regH := fun _ => TimerControlSetting.new }

/-- Counter-low register address of timer unit `id` (the handle
`Timeout::new` binds for that unit). -/
def tmCntL (id : Nat) : Nat :=
  if id = 0 then TM0CNT_L
  else if id = 1 then TM1CNT_L
  else if id = 2 then TM2CNT_L
  else if id = 3 then TM3CNT_L
  else 0

/-- Control-high register address of timer unit `id` (the handle
`Timeout::new` binds for that unit). -/
def tmCntH (id : Nat) : Nat :=
  if id = 0 then TM0CNT_H
  else if id = 1 then TM1CNT_H
  else if id = 2 then TM2CNT_H
  else if id = 3 then TM3CNT_H
  else 0

/-- The armed control configuration `start` writes last: /1024 prescaler,
counting enabled. -/
def armedCtl : TimerControlSetting :=
  (TimerControlSetting.new.with_tick_rate TimerTickRate.CPU1024).with_enabled
    true

/-- C1, counterexample: the claim reads `is_timeout_met(check_ms) ↔
v > check_ms * 17` with the mathematical product, for every 16-bit
`check_ms` and counter value `v`.  The source computes `check_ms * 17` in
wrapping u16 arithmetic, so at `check_ms = 3856` (where `3856 * 17 = 65552`
wraps to `16`) and counter value `v = 17`, `is_timeout_met` returns `true`
although `17 > 3856 * 17` is false. -/
theorem is_timeout_met_claim_cex :
    wdT0.active = true ∧ (3856 : Nat) < 2 ^ 16 ∧ (17 : Nat) < 2 ^ 16 ∧
    (stateT0 17).regL wdT0.timer_l = 17 ∧
    (wdT0.is_timeout_met (stateT0 17) 3856).1 = true ∧
    ¬ ((17 : Nat) > 3856 * 17) := by
  refine ⟨rfl, by norm_num, by norm_num, ?_, ?_, by norm_num⟩
  · simp [stateT0, wdT0]
  · decide

/-- C1, amended: for every Watchdog with `active = true`, every 16-bit
threshold `check_ms` and every counter value `v` read from the counter
register, `is_timeout_met(check_ms)` returns true iff `v` strictly exceeds
`check_ms * 17` computed in wrapping 16-bit arithmetic, i.e.
`(check_ms * 17) % 2 ^ 16`. -/
theorem is_timeout_met_iff_wrapped (t : Timeout) (s : SaveState)
    (check_ms : Nat) (hact : t.active = true) (hms : check_ms < 2 ^ 16) :
    (t.is_timeout_met s check_ms).1 = true ↔
      s.regL t.timer_l > check_ms * 17 % 2 ^ 16 := by
  simp [Timeout.is_timeout_met, hact, gt_iff_lt]

/-- Witness for the amended C1 theorem at `check_ms = 3856`, `v = 17`. -/
theorem is_timeout_met_iff_wrapped_witness :
    wdT0.active = true ∧ (3856 : Nat) < 2 ^ 16 ∧
    ((wdT0.is_timeout_met (stateT0 17) 3856).1 = true ↔
      (stateT0 17).regL wdT0.timer_l > 3856 * 17 % 2 ^ 16) :=
  ⟨rfl, by norm_num,
    is_timeout_met_iff_wrapped wdT0 (stateT0 17) 3856 rfl (by norm_num)⟩

/-- C2: with the watchdog lock free, for every `id < 4`,
`set_timer_for_timeout id` succeeds and a subsequently constructed Watchdog
is active with its counter-low/control-high handles bound to timer unit
`id`; for `id ≥ 4` the call aborts (modelled as `none`, so no state — in
particular no selector change — results). -/
theorem set_timer_then_new (id : Nat) (s : SaveState)
    (hlock : s.timeoutLocked = false) :
    (id < 4 →
      ∃ s', set_timer_for_timeout id s = some s' ∧
        Timeout.new s' =
          Except.ok
            ({ active := true, timer_l := tmCntL id, timer_h := tmCntH id },
             { s' with timeoutLocked := true })) ∧
    (4 ≤ id → set_timer_for_timeout id s = none) := by
  constructor
  · intro h4
    interval_cases id
    · exact ⟨{ s with timerId := TimerId.T0 }, rfl,
        by simp [Timeout.new, hlock, tmCntL, tmCntH]⟩
    · exact ⟨{ s with timerId := TimerId.T1 }, rfl,
        by simp [Timeout.new, hlock, tmCntL, tmCntH]⟩
    · exact ⟨{ s with timerId := TimerId.T2 }, rfl,
        by simp [Timeout.new, hlock, tmCntL, tmCntH]⟩
    · exact ⟨{ s with timerId := TimerId.T3 }, rfl,
        by simp [Timeout.new, hlock, tmCntL, tmCntH]⟩
  · intro h4
    simp [set_timer_for_timeout, h4]

/-- Witness for C2 at `id = 2` on a fresh state. -/
theorem set_timer_then_new_witness :
    ((2 : Nat) < 4 →
      ∃ s', set_timer_for_timeout 2 initState = some s' ∧
        Timeout.new s' =
          Except.ok
            ({ active := true, timer_l := tmCntL 2, timer_h := tmCntH 2 },
             { s' with timeoutLocked := true })) ∧
    (4 ≤ (2 : Nat) → set_timer_for_timeout 2 initState = none) :=
  set_timer_then_new 2 initState rfl

/-- C3: at most one Watchdog exists at a time.  If `Timeout::new` succeeds
from state `s`, producing watchdog `t₁` and state `s₁` (the watchdog lock
now held), then a second `Timeout::new` while `t₁` is alive fails with
`MediaInUse` and produces no watchdog; once `t₁` is dropped (releasing the
lock guard), the next `Timeout::new` succeeds. -/
theorem watchdog_exclusive (s : SaveState) (t₁ : Timeout) (s₁ : SaveState)
    (h : Timeout.new s = Except.ok (t₁, s₁)) :
    Timeout.new s₁ = Except.error Error.MediaInUse ∧
    ∃ t₂ s₂, Timeout.new (Timeout.drop s₁) = Except.ok (t₂, s₂) := by
  unfold Timeout.new at h
  by_cases hl : s.timeoutLocked
  · simp [hl] at h
  · simp [hl] at h
    obtain ⟨-, hs⟩ := h
    constructor
    · rw [← hs]
      simp [Timeout.new]
    · exact ⟨_, _, rfl⟩

/-- Witness for C3 on a fresh state. -/
theorem watchdog_exclusive_witness :
    Timeout.new { initState with timeoutLocked := true } =
      Except.error Error.MediaInUse ∧
    ∃ t₂ s₂,
      Timeout.new (Timeout.drop { initState with timeoutLocked := true }) =
        Except.ok (t₂, s₂) :=
  watchdog_exclusive initState
    { active := false, timer_l := 0, timer_h := 0 }
    { initState with timeoutLocked := true } rfl

/-- C4: every Watchdog constructed after `disable_timeout()` has
`active = false`; on it, `is_timeout_met` returns false for every threshold
and every register state (and reads nothing), and `start` performs no
register writes and leaves every state unchanged. -/
theorem disable_then_inactive (s : SaveState) (t : Timeout) (s₁ : SaveState)
    (h : Timeout.new (disable_timeout s) = Except.ok (t, s₁)) :
    t.active = false ∧
    (∀ s₂ check_ms, t.is_timeout_met s₂ check_ms = (false, [])) ∧
    (∀ s₂, t.start s₂ = (s₂, [])) := by
  unfold Timeout.new disable_timeout at h
  by_cases hl : s.timeoutLocked
  · simp [hl] at h
  · simp [hl] at h
    obtain ⟨ht, -⟩ := h
    rw [← ht]
    refine ⟨rfl, ?_, ?_⟩ <;> intros <;>
      simp [Timeout.is_timeout_met, Timeout.start]

/-- Witness for C4 on a fresh state. -/
theorem disable_then_inactive_witness :
    ({ active := false, timer_l := 0, timer_h := 0 : Timeout }).active =
      false ∧
    (∀ s₂ check_ms,
      Timeout.is_timeout_met
        { active := false, timer_l := 0, timer_h := 0 } s₂ check_ms =
        (false, [])) ∧
    (∀ s₂,
      Timeout.start { active := false, timer_l := 0, timer_h := 0 } s₂ =
        (s₂, [])) :=
  disable_then_inactive initState
    { active := false, timer_l := 0, timer_h := 0 }
    { disable_timeout initState with timeoutLocked := true } rfl

/-- C5: on an active Watchdog, every call to `start` emits exactly the
write sequence "counter := 0, control := cleared, control := armed
(/1024 prescaler, enabled)", and afterwards the counter register holds 0
and the control register holds the armed configuration; a repeated `start`
emits the same sequence and leaves the same final register values. -/
theorem start_active_spec (t : Timeout) (s : SaveState)
    (h : t.active = true) :
    (t.start s).2 =
      [RegAccess.writeL t.timer_l 0,
       RegAccess.writeH t.timer_h TimerControlSetting.new,
       RegAccess.writeH t.timer_h armedCtl] ∧
    (t.start s).1.regL t.timer_l = 0 ∧
    (t.start s).1.regH t.timer_h = armedCtl ∧
    armedCtl.tick_rate = TimerTickRate.CPU1024 ∧
    armedCtl.enabled = true ∧
    (t.start (t.start s).1).2 = (t.start s).2 ∧
    (t.start (t.start s).1).1.regL t.timer_l = 0 ∧
    (t.start (t.start s).1).1.regH t.timer_h = armedCtl := by
  simp [Timeout.start, SaveState.writeL, SaveState.writeH, armedCtl, h,
    TimerControlSetting.new, TimerControlSetting.with_tick_rate,
    TimerControlSetting.with_enabled]

/-- Witness for C5 on the timer-0 watchdog. -/
theorem start_active_spec_witness :
    (wdT0.start (stateT0 0)).2 =
      [RegAccess.writeL wdT0.timer_l 0,
       RegAccess.writeH wdT0.timer_h TimerControlSetting.new,
       RegAccess.writeH wdT0.timer_h armedCtl] ∧
    (wdT0.start (stateT0 0)).1.regL wdT0.timer_l = 0 ∧
    (wdT0.start (stateT0 0)).1.regH wdT0.timer_h = armedCtl ∧
    armedCtl.tick_rate = TimerTickRate.CPU1024 ∧
    armedCtl.enabled = true ∧
    (wdT0.start (wdT0.start (stateT0 0)).1).2 = (wdT0.start (stateT0 0)).2 ∧
    (wdT0.start (wdT0.start (stateT0 0)).1).1.regL wdT0.timer_l = 0 ∧
    (wdT0.start (wdT0.start (stateT0 0)).1).1.regH wdT0.timer_h = armedCtl :=
  start_active_spec wdT0 (stateT0 0) rfl

/-- C6: `lock_media` is a non-blocking try-acquire of the media lock: it
succeeds exactly when the media lock is free (returning the guard, i.e. the
state with the lock held), fails with `MediaInUse` whenever the lock is
already held, and after the guard is released (`unlock_media`, the guard's
scope exit) the next `lock_media` succeeds again. -/
theorem lock_media_spec (s s₁ : SaveState) :
    (s.mediaLocked = false →
      lock_media s = Except.ok { s with mediaLocked := true }) ∧
    (s.mediaLocked = true → lock_media s = Except.error Error.MediaInUse) ∧
    (lock_media s = Except.ok s₁ →
      lock_media s₁ = Except.error Error.MediaInUse ∧
      ∃ s₂, lock_media (unlock_media s₁) = Except.ok s₂) := by
  refine ⟨fun hfree => ?_, fun hheld => ?_, fun hok => ?_⟩
  · simp [lock_media, hfree]
  · simp [lock_media, hheld]
  · unfold lock_media at hok
    by_cases hm : s.mediaLocked
    · simp [hm] at hok
    · simp [hm] at hok
      rw [← hok]
      exact ⟨by simp [lock_media], _, rfl⟩

/-- Witness for C6: contention after a successful acquisition, then
success after release. -/
theorem lock_media_spec_witness :
    lock_media { initState with mediaLocked := true } =
      Except.error Error.MediaInUse ∧
    ∃ s₂,
      lock_media (unlock_media { initState with mediaLocked := true }) =
        Except.ok s₂ :=
  (lock_media_spec initState { initState with mediaLocked := true }).2.2 rfl

/-- C7: the Watchdog lock and the media lock are independent.
`Timeout::new` succeeds iff the watchdog lock is free and `lock_media`
succeeds iff the media lock is free — each outcome depends only on its own
lock — and acquiring either lock leaves the outcome of acquiring the other
unchanged. -/
theorem locks_independent (s : SaveState) :
    (Timeout.new s).isOk = !s.timeoutLocked ∧
    (lock_media s).isOk = !s.mediaLocked ∧
    (∀ s₁, lock_media s = Except.ok s₁ →
      (Timeout.new s₁).isOk = (Timeout.new s).isOk) ∧
    (∀ t s₁, Timeout.new s = Except.ok (t, s₁) →
      (lock_media s₁).isOk = (lock_media s).isOk) := by
  refine ⟨?_, ?_, fun s₁ h₁ => ?_, fun t s₁ h₂ => ?_⟩
  · by_cases hl : s.timeoutLocked <;> simp [Timeout.new, hl, Except.isOk, Except.toBool]
  · by_cases hm : s.mediaLocked <;> simp [lock_media, hm, Except.isOk, Except.toBool]
  · unfold lock_media at h₁
    by_cases hm : s.mediaLocked
    · simp [hm] at h₁
    · simp [hm] at h₁
      rw [← h₁]
      by_cases hl : s.timeoutLocked <;> simp [Timeout.new, hl, Except.isOk, Except.toBool]
  · unfold Timeout.new at h₂
    by_cases hl : s.timeoutLocked
    · simp [hl] at h₂
    · simp [hl] at h₂
      rw [← h₂.2]
      by_cases hm : s.mediaLocked <;> simp [lock_media, hm, Except.isOk, Except.toBool]

/-- Witness for C7: holding the media lock leaves `Timeout::new`'s outcome
unchanged on a fresh state. -/
theorem locks_independent_witness :
    (Timeout.new { initState with mediaLocked := true }).isOk =
      (Timeout.new initState).isOk :=
  (locks_independent initState).2.2.1 { initState with mediaLocked := true }
    rfl

/-- C8: a Watchdog snapshots the timer selector once at construction.
Registry updates made afterwards (`set_timer_for_timeout` or
`disable_timeout`) change only the selector, so for any watchdog `t` the
register-access traces and results of `start` and `is_timeout_met` are the
same before and after the registry change (the watchdog's `active` flag and
register bindings are fields of the immutable `t` and cannot change at
all). -/
theorem watchdog_snapshot (t : Timeout) (s s' : SaveState)
    (id check_ms : Nat) (h : set_timer_for_timeout id s = some s') :
    ((t.start s').2 = (t.start s).2 ∧
      (∀ a, (t.start s').1.regL a = (t.start s).1.regL a) ∧
      (∀ a, (t.start s').1.regH a = (t.start s).1.regH a) ∧
      t.is_timeout_met s' check_ms = t.is_timeout_met s check_ms) ∧
    ((t.start (disable_timeout s)).2 = (t.start s).2 ∧
      (∀ a, (t.start (disable_timeout s)).1.regL a = (t.start s).1.regL a) ∧
      (∀ a, (t.start (disable_timeout s)).1.regH a = (t.start s).1.regH a) ∧
      t.is_timeout_met (disable_timeout s) check_ms =
        t.is_timeout_met s check_ms) := by
  unfold set_timer_for_timeout at h
  by_cases h4 : id ≥ 4
  · simp [h4] at h
  · simp [h4] at h
    rw [← h]
    constructor <;>
      refine ⟨?_, fun a => ?_, fun a => ?_, ?_⟩ <;>
        by_cases ha : t.active <;>
          simp [Timeout.start, Timeout.is_timeout_met, SaveState.writeL,
            SaveState.writeH, disable_timeout, ha]

/-- Witness for C8 at `id = 1` on a fresh state. -/
theorem watchdog_snapshot_witness :
    ((wdT0.start { initState with timerId := TimerId.T1 }).2 =
        (wdT0.start initState).2 ∧
      (∀ a, (wdT0.start { initState with timerId := TimerId.T1 }).1.regL a =
        (wdT0.start initState).1.regL a) ∧
      (∀ a, (wdT0.start { initState with timerId := TimerId.T1 }).1.regH a =
        (wdT0.start initState).1.regH a) ∧
      wdT0.is_timeout_met { initState with timerId := TimerId.T1 } 100 =
        wdT0.is_timeout_met initState 100) ∧
    ((wdT0.start (disable_timeout initState)).2 =
        (wdT0.start initState).2 ∧
      (∀ a, (wdT0.start (disable_timeout initState)).1.regL a =
        (wdT0.start initState).1.regL a) ∧
      (∀ a, (wdT0.start (disable_timeout initState)).1.regH a =
        (wdT0.start initState).1.regH a) ∧
      wdT0.is_timeout_met (disable_timeout initState) 100 =
        wdT0.is_timeout_met initState 100) :=
  watchdog_snapshot wdT0 initState { initState with timerId := TimerId.T1 }
    1 100 rfl

/-- C9: a Watchdog constructed while the selector is `None` has
`active = false` and both register handles bound to the sentinel address 0;
on it, `start` performs no register access (and changes no state) and
`is_timeout_met` performs no register access (and returns false), so the
sentinel address is never dereferenced. -/
theorem inactive_no_register_access (s : SaveState) (t : Timeout)
    (s₁ : SaveState) (hsel : s.timerId = TimerId.None)
    (h : Timeout.new s = Except.ok (t, s₁)) :
    t.active = false ∧ t.timer_l = 0 ∧ t.timer_h = 0 ∧
    (∀ s₂, t.start s₂ = (s₂, [])) ∧
    (∀ s₂ check_ms, t.is_timeout_met s₂ check_ms = (false, [])) := by
  unfold Timeout.new at h
  by_cases hl : s.timeoutLocked
  · simp [hl] at h
  · simp [hl, hsel] at h
    rw [← h.1]
    refine ⟨rfl, rfl, rfl, ?_, ?_⟩ <;> intros <;>
      simp [Timeout.start, Timeout.is_timeout_met]

/-- Witness for C9 on a fresh state (selector `None`). -/
theorem inactive_no_register_access_witness :
    ({ active := false, timer_l := 0, timer_h := 0 : Timeout }).active =
      false ∧
    ({ active := false, timer_l := 0, timer_h := 0 : Timeout }).timer_l =
      0 ∧
    ({ active := false, timer_l := 0, timer_h := 0 : Timeout }).timer_h =
      0 ∧
    (∀ s₂,
      Timeout.start { active := false, timer_l := 0, timer_h := 0 } s₂ =
        (s₂, [])) ∧
    (∀ s₂ check_ms,
      Timeout.is_timeout_met
        { active := false, timer_l := 0, timer_h := 0 } s₂ check_ms =
        (false, [])) :=
  inactive_no_register_access initState
    { active := false, timer_l := 0, timer_h := 0 }
    { initState with timeoutLocked := true } rfl rfl

/-- C10: the registry functions only touch the selector.  Whenever
`set_timer_for_timeout id` returns a state (i.e. `id < 4`, where it always
succeeds — it can never fail with `MediaInUse`, its result type has no
error), both lock bits and both register files are unchanged; and
`disable_timeout` likewise changes neither lock bit nor any register. -/
theorem registry_frame (s : SaveState) (id : Nat) :
    (∀ s', set_timer_for_timeout id s = some s' →
      s'.timeoutLocked = s.timeoutLocked ∧
      s'.mediaLocked = s.mediaLocked ∧
      s'.regL = s.regL ∧ s'.regH = s.regH) ∧
    (id < 4 → ∃ s', set_timer_for_timeout id s = some s') ∧
    ((disable_timeout s).timeoutLocked = s.timeoutLocked ∧
      (disable_timeout s).mediaLocked = s.mediaLocked ∧
      (disable_timeout s).regL = s.regL ∧
      (disable_timeout s).regH = s.regH) := by
  refine ⟨fun s' h => ?_, fun h4 => ?_, rfl, rfl, rfl, rfl⟩
  · unfold set_timer_for_timeout at h
    by_cases hge : id ≥ 4
    · simp [hge] at h
    · simp [hge] at h
      rw [← h]
      exact ⟨rfl, rfl, rfl, rfl⟩
  · unfold set_timer_for_timeout
    have hge : ¬ id ≥ 4 := by omega
    simp [hge]

/-- Witness for C10 at `id = 0` on a fresh state. -/
theorem registry_frame_witness :
    ({ initState with timerId := TimerId.T0 }).timeoutLocked =
      initState.timeoutLocked ∧
    ({ initState with timerId := TimerId.T0 }).mediaLocked =
      initState.mediaLocked ∧
    ({ initState with timerId := TimerId.T0 }).regL = initState.regL ∧
    ({ initState with timerId := TimerId.T0 }).regH = initState.regH :=
  (registry_frame initState 0).1 { initState with timerId := TimerId.T0 } rfl
